import Mathlib

/-!
Verification of the Aha!↔Jira synchronizer (files `Ahaj.py` and
`Jira2AhaSync.py`) against its natural-language specification.

The repository's records are loosely typed Python dictionaries (parsed JSON).
We model JSON values with the inductive type `JValue`, and records whose shape
the code assumes (ideas, comments, attachments, configuration) as Lean
structures with `Option` fields, where `none` models an absent key.  Python
string truthiness (`if s:`) is modelled explicitly (`none` or the empty
string is falsy).  Machine-level concerns (HTTP transport, rate limiting,
logging) are modelled as oracles passed in as function arguments, exactly at
the call sites where the Python code performs I/O.
-/

/-- A JSON value as produced by the external REST APIs: the dynamic values
that `Ahaj.py` traverses with `isinstance` checks.  Numbers are modelled as
integers (the scores the code compares are integral in every example). -/
inductive JValue where
  | null
  | bool (b : Bool)
  | num (n : Int)
  | str (s : String)
  | arr (items : List JValue)
  | obj (entries : List (String × JValue))

namespace JValue

/-- Extract a string payload, `none` on any other constructor. -/
def asString : JValue → Option String
  | .str s => some s
  | _ => none

end JValue

/-- Association-list lookup with Python `dict` semantics: the first binding
of the key wins (keys in a Python dict are unique). -/
def dictLookup (entries : List (String × JValue)) (k : String) : Option JValue :=
  match entries with
  | [] => none
  | (k', v) :: rest => if k' = k then some v else dictLookup rest k

/-- Python `dict` assignment `d[k] = v`: overwrite in place when the key is
present, append otherwise (insertion order is preserved). -/
def dictInsert (entries : List (String × JValue)) (k : String) (v : JValue) :
    List (String × JValue) :=
  match entries with
  | [] => [(k, v)]
  | (k', v') :: rest =>
      if k' = k then (k', v) :: rest else (k', v') :: dictInsert rest k v

/-! ### 4.1 Nested Field Resolver — `AhaJiraSync.get_nested_field_value`
(`src/Ahaj.py` lines 437–453).

The Python loop walks `field_path.split('.')`.  At each segment, if the
current value is a dict containing the segment it descends; else if it is a
list and the segment satisfies `key.isdigit()` it tries `current[int(key)]`,
catching `IndexError`; otherwise it returns `None`.  `String.toNat?` returns
`some` exactly on the nonempty all-digit strings accepted by `key.isdigit()`
(ASCII digits), and then computes the same number as Python's `int`. -/

def getNestedGo : List String → JValue → Option JValue
  | [], current => some current
  | key :: keys, current =>
      match current with
      | .obj entries =>
          match dictLookup entries key with
          | some v => getNestedGo keys v
          | none => none
      | .arr items =>
          match key.toNat? with
          | some i =>
              match items[i]? with
              | some v => getNestedGo keys v
              | none => none
          | none => none
      | _ => none

/-- The embedding of `get_nested_field_value(data, field_path)`. -/
def get_nested_field_value (data : JValue) (field_path : String) : Option JValue :=
  getNestedGo (field_path.splitOn ".") data

/-! Spec-side resolver, written from the words of §4.1: at each segment, a
mapping containing the segment as a key yields that key's value; an ordered
sequence whose segment parses as a non-negative in-bounds index yields that
element; everything else yields "absent". -/

/-- One resolution step, per the specification's wording. -/
def resolveSegmentSpec (current : JValue) (seg : String) : Option JValue :=
  match current with
  | .obj entries => dictLookup entries seg
  | .arr items =>
      match seg.toNat? with
      | some i => items[i]?
      | none => none
  | _ => none

/-- Spec-side path walk: thread `resolveSegmentSpec` through the segments,
failing as soon as one step yields "absent". -/
def resolvePathSpec (segs : List String) (current : JValue) : Option JValue :=
  match segs with
  | [] => some current
  | seg :: rest =>
      match resolveSegmentSpec current seg with
      | some v => resolvePathSpec rest v
      | none => none

lemma getNestedGo_eq_resolvePathSpec (segs : List String) (v : JValue) :
    getNestedGo segs v = resolvePathSpec segs v := by
  induction segs generalizing v with
  | nil => rfl
  | cons seg rest ih =>
      cases v with
      | null => rfl
      | bool b => rfl
      | num n => rfl
      | str s => rfl
      | arr items =>
          cases h : seg.toNat? with
          | none => simp [getNestedGo, resolvePathSpec, resolveSegmentSpec, h]
          | some i =>
              cases hg : items[i]? with
              | none => simp [getNestedGo, resolvePathSpec, resolveSegmentSpec, h, hg]
              | some w =>
                  simp [getNestedGo, resolvePathSpec, resolveSegmentSpec, h, hg, ih w]
      | obj entries =>
          cases h : dictLookup entries seg with
          | none => simp [getNestedGo, resolvePathSpec, resolveSegmentSpec, h]
          | some w =>
              simp [getNestedGo, resolvePathSpec, resolveSegmentSpec, h, ih w]

/-- **C1.** The nested field resolver walks the dotted path segment by
segment: a mapping containing the segment as a key descends into that value;
an ordered sequence with a non-negative in-bounds integer segment descends
into that index; every other case makes the whole lookup return `none`
("absent") rather than failing; and when every segment resolves the exact
nested value reached is returned.  Formally, `get_nested_field_value` equals
the specification-side walk `resolvePathSpec` (whose single step
`resolveSegmentSpec` is the case split of the claim) on the segments of the
path, for every record and every dotted path. -/
theorem c1_nested_field_resolver (data : JValue) (field_path : String) :
    get_nested_field_value data field_path =
      resolvePathSpec (field_path.splitOn ".") data := by
  unfold get_nested_field_value
  exact getNestedGo_eq_resolvePathSpec _ data

/-! ### Ahaj.py data model

Records as the Aha! API delivers them and as `Ahaj.py` consumes them with
`dict.get`: a Lean structure field of type `Option _` is `none` exactly when
the Python dict lacks the key.  Configuration values that the code only ever
probes with `dict.get(...)` (i.e. whose absence Python reports as `None`,
which is falsy) are likewise `Option`s. -/

/-- Generic first-wins association lookup, Python's `d.get(k)` for a
string-keyed dict. -/
def lookupKey {α : Type} (t : List (String × α)) (k : String) : Option α :=
  match t with
  | [] => none
  | (k', v) :: rest => if k' = k then some v else lookupKey rest k

/-- `created_by` / `assigned_to` sub-objects of an idea or a comment. -/
structure CreatedBy where
  name : Option String := none
  email : Option String := none

/-- The `workflow_status` sub-object of an idea. -/
structure WorkflowStatus where
  name : Option String := none

/-- A member of the idea's `categories` list. -/
structure Category where
  name : Option String := none

/-- The `portal` sub-object of an idea. -/
structure Portal where
  name : Option String := none
  url : Option String := none

/-- The `feature` sub-object of an idea. -/
structure Feature where
  reference_num : Option String := none
  url : Option String := none
  name : Option String := none

/-- A member of the idea's `custom_fields` list.  Values are modelled as
strings (the only use the code makes of a value is to interpolate it into
text or copy it verbatim). -/
structure CustomField where
  name : Option String := none
  value : Option String := none

/-- An Aha! idea in the shape `Ahaj.py` assumes (a JSON object whose
sub-objects, where present, are again objects).  `categories` and
`custom_fields`: an absent key and an empty list are indistinguishable to
the code (every access guards with truthiness), so both are `[]` here. -/
structure Idea where
  name : Option String := none
  description : Option String := none
  url : Option String := none
  reference_num : Option String := none
  created_at : Option String := none
  score : Option Int := none
  categories : List Category := []
  custom_fields : List CustomField := []
  portal : Option Portal := none
  created_by : Option CreatedBy := none
  assigned_to : Option CreatedBy := none
  workflow_status : Option WorkflowStatus := none
  feature : Option Feature := none

/-- The configuration slice `Ahaj.py` reads: `config['jira']` (required keys
`project_key`, `issue_type`, `default_status`) and the optional
`field_mappings` tables.  `priority_mappings` is an `Option` because the
code substitutes a built-in default table only when the key is absent. -/
structure AhajConfig where
  project_key : String
  issue_type : String
  default_status : String
  status_mappings : List (String × String) := []
  priority_mappings : Option (List (String × String)) := none
  assignee_mappings : List (String × String) := []
  xref_id_field : Option String := none
  xref_created_field : Option String := none
  xref_reporter_field : Option String := none
  custom_fields : List (String × String) := []
  description_custom_fields : List String := []

/-! ### Status mapping — `AhaJiraSync.map_status` (`src/Ahaj.py` 260–267). -/

/-- `idea.get('workflow_status', {}).get('name', 'New')`. -/
def ahaStatusLabel (idea : Idea) : String :=
  ((idea.workflow_status.getD {}).name).getD "New"

/-- The embedding of `map_status`:
`status_mappings.get(aha_status, self.config['jira']['default_status'])`. -/
def map_status (idea : Idea) (cfg : AhajConfig) : String :=
  let aha_status := ahaStatusLabel idea
  (lookupKey cfg.status_mappings aha_status).getD cfg.default_status

/-! ### Priority mapping — the orphaned `map_priority` body
(`src/Ahaj.py` 329–344; the body sits after the `return` of
`add_web_link_to_jira_issue`, its `def` line lost — §9 of the spec directs
that the body be read as the intended behaviour). -/

/-- The literal default table in the Python source. -/
def defaultPriorityMappings : List (String × String) :=
  [("high", "High"), ("medium", "Medium"), ("low", "Low")]

/-- The embedding of `map_priority`: score thresholds 80 and 50 are literals
in the source; only the labels come from `priority_mappings`. -/
def map_priority (idea : Idea) (cfg : AhajConfig) : String :=
  let score := idea.score.getD 0
  let priority_mappings := cfg.priority_mappings.getD defaultPriorityMappings
  if score ≥ 80 then (lookupKey priority_mappings "high").getD "High"
  else if score ≥ 50 then (lookupKey priority_mappings "medium").getD "Medium"
  else (lookupKey priority_mappings "low").getD "Low"

/-! ### Claims C6 and C10 (status mapping). -/

/-- **C6.** Status mapping returns exactly the configured table's value when
the record's status label is a key of the table, and the configured default
target status otherwise, for every record and every table/default. -/
theorem c6_status_mapping (idea : Idea) (cfg : AhajConfig) :
    (∀ v, lookupKey cfg.status_mappings (ahaStatusLabel idea) = some v →
        map_status idea cfg = v) ∧
    (lookupKey cfg.status_mappings (ahaStatusLabel idea) = none →
        map_status idea cfg = cfg.default_status) := by
  constructor
  · intro v hv
    simp [map_status, hv]
  · intro hn
    simp [map_status, hn]

/-- Witness for C6 at concrete inputs: a record whose status label
`"Under review"` is in the table gets the table value, and one whose label
is absent gets the default. -/
theorem c6_status_mapping_witness :
    map_status { workflow_status := some { name := some "Under review" } }
        { project_key := "PROJ", issue_type := "Story", default_status := "To Do",
          status_mappings := [("Under review", "In Progress")] } = "In Progress" ∧
    map_status { workflow_status := some { name := some "Parked" } }
        { project_key := "PROJ", issue_type := "Story", default_status := "To Do",
          status_mappings := [("Under review", "In Progress")] } = "To Do" := by
  refine ⟨(c6_status_mapping _ _).1 "In Progress" rfl, (c6_status_mapping _ _).2 rfl⟩

/-- **C10.** A record with no `workflow_status` object, or whose
`workflow_status` has no `name`, is treated as status label `"New"`:
`map_status` returns the table's entry for `"New"` when configured, else the
configured default. -/
theorem c10_status_missing_is_new (idea : Idea) (cfg : AhajConfig)
    (h : idea.workflow_status = none ∨
        ∃ ws, idea.workflow_status = some ws ∧ ws.name = none) :
    map_status idea cfg =
      (lookupKey cfg.status_mappings "New").getD cfg.default_status := by
  have hlabel : ahaStatusLabel idea = "New" := by
    rcases h with h | ⟨ws, hws, hname⟩
    · simp [ahaStatusLabel, h]
    · simp [ahaStatusLabel, hws, hname]
  simp [map_status, hlabel]

/-- Witness for C10: a record with no workflow status at all maps through the
table's `"New"` entry, and with an empty table falls to the default. -/
theorem c10_status_missing_is_new_witness :
    map_status {}
        { project_key := "PROJ", issue_type := "Story", default_status := "To Do",
          status_mappings := [("New", "Backlog")] } = "Backlog" ∧
    map_status { workflow_status := some {} }
        { project_key := "PROJ", issue_type := "Story", default_status := "To Do" }
      = "To Do" := by
  constructor
  · exact (c10_status_missing_is_new _ _ (Or.inl rfl)).trans rfl
  · exact (c10_status_missing_is_new _ _ (Or.inr ⟨{}, rfl, rfl⟩)).trans rfl

/-! ### Claim C3 (priority bands).

The claim asserts the derivation honours *caller-supplied* thresholds.  The
source hard-codes the thresholds 80 and 50 (`map_priority` takes no
threshold parameters); only the labels are configurable.  Counterexample:
with claimed thresholds high = 90 / medium = 60, the score 85 falls in the
claimed medium band, yet the code returns the high label. -/

/-- An idea whose score is 85, used to refute C3 as stated. -/
def ideaScore85 : Idea := { score := some 85 }

/-- A configuration whose priority label table is `{high H, medium M, low L}`. -/
def cfgPrioLabels : AhajConfig :=
  { project_key := "PROJ", issue_type := "Story", default_status := "To Do",
    priority_mappings := some [("high", "H"), ("medium", "M"), ("low", "L")] }

/-- **C3 counterexample.** For the caller-supplied thresholds high = 90,
medium = 60 the claim puts score 85 in the medium band (60 ≤ 85 < 90, so the
configured medium label `"M"` is required), but `map_priority` — which has no
threshold parameters and compares against the literals 80 and 50 — returns
the high label `"H"`. -/
theorem c3_counterexample :
    (60 : Int) ≤ 85 ∧ (85 : Int) < 90 ∧
    map_priority ideaScore85 cfgPrioLabels = "H" ∧
    lookupKey (cfgPrioLabels.priority_mappings.getD defaultPriorityMappings)
        "medium" = some "M" ∧
    ("H" : String) ≠ "M" := by
  refine ⟨by decide, by decide, rfl, rfl, by decide⟩

/-- **C3 amended.** With the thresholds fixed at the source's literals 80 and
50: a score ≥ 80 maps to the configured high label, a score in [50, 80) to
the configured medium label, and a score below 50 to the configured low
label, where the labels are read from the configurable `priority_mappings`
table (falling back to the built-in `High`/`Medium`/`Low`). -/
theorem c3_priority_bands (idea : Idea) (cfg : AhajConfig) :
    (80 ≤ idea.score.getD 0 → map_priority idea cfg =
        (lookupKey (cfg.priority_mappings.getD defaultPriorityMappings)
          "high").getD "High") ∧
    (50 ≤ idea.score.getD 0 ∧ idea.score.getD 0 < 80 → map_priority idea cfg =
        (lookupKey (cfg.priority_mappings.getD defaultPriorityMappings)
          "medium").getD "Medium") ∧
    (idea.score.getD 0 < 50 → map_priority idea cfg =
        (lookupKey (cfg.priority_mappings.getD defaultPriorityMappings)
          "low").getD "Low") := by
  refine ⟨fun h => ?_, fun h => ?_, fun h => ?_⟩
  · simp only [map_priority]
    rw [if_pos (by omega)]
  · simp only [map_priority]
    rw [if_neg (by omega), if_pos (by omega)]
  · simp only [map_priority]
    rw [if_neg (by omega), if_neg (by omega)]

/-- Witness for the amended C3 at concrete scores 85, 60 and 10 with the
label table of `cfgPrioLabels`. -/
theorem c3_priority_bands_witness :
    map_priority ideaScore85 cfgPrioLabels = "H" ∧
    map_priority { score := some 60 } cfgPrioLabels = "M" ∧
    map_priority { score := some 10 } cfgPrioLabels = "L" := by
  refine ⟨?_, ?_, ?_⟩
  · exact ((c3_priority_bands ideaScore85 cfgPrioLabels).1 (by decide)).trans rfl
  · exact ((c3_priority_bands _ cfgPrioLabels).2.1 (by decide)).trans rfl
  · exact ((c3_priority_bands _ cfgPrioLabels).2.2 (by decide)).trans rfl

/-! ### 4.3 Comment Aggregator — `AhaJiraSync.format_comments_for_jira`
(`src/Ahaj.py` 114–140). -/

/-- An Aha! comment in the shape the code reads with `dict.get`. -/
structure Comment where
  created_by : Option CreatedBy := none
  created_at : Option String := none
  body : Option String := none

/-- The header line built for one comment: author name, the email in
parentheses when present and nonempty (Python truthiness), and the
timestamp. -/
def commentHeader (comment : Comment) : String :=
  let created_by := comment.created_by.getD {}
  let author_name := created_by.name.getD "Unknown User"
  let author_email := created_by.email.getD ""
  let created_at := comment.created_at.getD "Unknown Date"
  let comment_header := "*Commented by:* " ++ author_name
  let comment_header :=
    if author_email ≠ "" then comment_header ++ " (" ++ author_email ++ ")"
    else comment_header
  comment_header ++ " on " ++ created_at

/-- The embedding of `format_comments_for_jira`: empty input short-circuits
to `""`; otherwise a preamble is followed, per comment in order, by the
delimiter `"---"`, the header, the body, and a blank line, all joined with
newlines. -/
def format_comments_for_jira (comments : List Comment) : String :=
  if comments.isEmpty then ""
  else
    let formatted_comments :=
      comments.foldl
        (fun acc comment =>
          acc ++ ["---", commentHeader comment, comment.body.getD "No content", ""])
        ["*Comments from Aha!:*", ""]
    String.intercalate "\n" formatted_comments

/-- Spec-side view of one rendered block: delimiter, header, body, blank. -/
def commentBlock (comment : Comment) : List String :=
  ["---", commentHeader comment, comment.body.getD "No content", ""]

lemma foldl_comment_blocks (comments : List Comment) (acc : List String) :
    comments.foldl
        (fun acc comment =>
          acc ++ ["---", commentHeader comment, comment.body.getD "No content", ""])
        acc
      = acc ++ (comments.map commentBlock).flatten := by
  induction comments generalizing acc with
  | nil => simp
  | cons c cs ih =>
      simp only [List.foldl_cons, List.map_cons, List.flatten_cons, ih, commentBlock,
        List.append_assoc]

/-- **C5.** The comment aggregator returns `""` on empty input; on `N`
comments it returns the newline-join of a fixed preamble followed by exactly
the `N` header/body blocks (`commentBlock`) in input order — one block per
comment, each opened by the visual delimiter `"---"` and carrying the
author, the parenthesised contact when present, the timestamp, and the
body. -/
theorem c5_comment_aggregator (comments : List Comment) :
    format_comments_for_jira [] = "" ∧
    (comments ≠ [] → format_comments_for_jira comments =
        String.intercalate "\n"
          (["*Comments from Aha!:*", ""] ++ (comments.map commentBlock).flatten)) ∧
    (comments.map commentBlock).length = comments.length := by
  refine ⟨rfl, fun h => ?_, by simp⟩
  have hne : comments.isEmpty = false := by
    cases comments with
    | nil => exact absurd rfl h
    | cons c cs => rfl
  simp only [format_comments_for_jira, hne, Bool.false_eq_true, if_false,
    foldl_comment_blocks]

/-- Witness for C5 on two concrete comments (one fully populated, one with
every key absent), including the fully evaluated output text. -/
theorem c5_comment_aggregator_witness :
    format_comments_for_jira
        [{ created_by := some { name := some "Alice", email := some "alice@x.io" },
           created_at := some "2020-01-01", body := some "Hello" },
         {}]
      = String.intercalate "\n"
          (["*Comments from Aha!:*", ""] ++
            (([{ created_by := some { name := some "Alice", email := some "alice@x.io" },
                 created_at := some "2020-01-01", body := some "Hello" },
               ({} : Comment)].map commentBlock).flatten)) ∧
    format_comments_for_jira
        [{ created_by := some { name := some "Alice", email := some "alice@x.io" },
           created_at := some "2020-01-01", body := some "Hello" },
         {}]
      = "*Comments from Aha!:*\n\n---\n*Commented by:* Alice (alice@x.io) on 2020-01-01\nHello\n\n---\n*Commented by:* Unknown User on Unknown Date\nNo content\n" := by
  refine ⟨(c5_comment_aggregator _).2.1 (by exact List.cons_ne_nil _ _), ?_⟩
  rfl

/-! ### 4.4 Pipeline Orchestrator — `AhaJiraSync.sync_ideas`
(`src/Ahaj.py` 455–507).

The per-record work (`fetch_idea_details`, `fetch_idea_comments`,
`create_jira_issue`) performs HTTP I/O; it is modelled by an oracle
`SyncEffects`.  A Python exception raised inside the per-record `try` is an
`Except.error`; `create_jira_issue` catches its own request errors and
returns `None`, modelled as `Except.ok none` (a failed primary write). -/

/-- Per-record effect oracle: what each call observed by `sync_ideas` would
return (or raise) for a given idea. -/
structure SyncEffects where
  fetch_idea_details : String → Except String Idea
  fetch_idea_comments : String → Except String (List Comment)
  create_jira_issue : Idea → Except String (Option String)
  add_comment_to_jira_issue : String → String → Bool

/-- The run summary dictionary built by `sync_ideas`. -/
structure SyncResults where
  total_ideas : Nat
  successful_syncs : Nat
  failed_syncs : Nat
  errors : List String
deriving DecidableEq

/-- The per-record outcome: the body of the per-record `try` block in
source order (detail fetch, then comments fetch, then issue creation),
stopping at the first raised exception. -/
def recordOutcome (eff : SyncEffects) (idea_id : String) :
    Except String (List Comment × Option String) :=
  match eff.fetch_idea_details idea_id with
  | .error e => .error e
  | .ok detailed_idea =>
      match eff.fetch_idea_comments idea_id with
      | .error e => .error e
      | .ok comments =>
          match eff.create_jira_issue detailed_idea with
          | .error e => .error e
          | .ok jira_issue_key => .ok (comments, jira_issue_key)

/-- One iteration of the `for idea_summary in ideas_list` loop: update the
counters from the record's outcome; the comment append's boolean result is
computed but never consulted. -/
def processIdea (eff : SyncEffects) (results : SyncResults) (idea_id : String) :
    SyncResults :=
  match recordOutcome eff idea_id with
  | .ok (comments, some jira_issue_key) =>
      let _ :=
        if comments.isEmpty then true
        else eff.add_comment_to_jira_issue jira_issue_key
          (format_comments_for_jira comments)
      { results with successful_syncs := results.successful_syncs + 1 }
  | .ok (_, none) =>
      { results with failed_syncs := results.failed_syncs + 1 }
  | .error e =>
      { results with failed_syncs := results.failed_syncs + 1,
                     errors := results.errors ++ ["Idea " ++ idea_id ++ ": " ++ e] }

/-- The embedding of `sync_ideas`: on a listing failure the outer `except`
records a fatal error with zeroed counters; otherwise every listed idea is
processed in order and the summary is returned.  The function is total for
every oracle: no per-record outcome can escape the loop. -/
def sync_ideas (eff : SyncEffects) (fetch_ideas_list : Except String (List String)) :
    SyncResults :=
  match fetch_ideas_list with
  | .error e =>
      { total_ideas := 0, successful_syncs := 0, failed_syncs := 0,
        errors := ["Fatal error: " ++ e] }
  | .ok ideas_list =>
      ideas_list.foldl (processIdea eff)
        { total_ideas := ideas_list.length, successful_syncs := 0,
          failed_syncs := 0, errors := [] }

/-- A record counts as successfully synced exactly when its outcome is a
created issue key. -/
def recordSucceeds (eff : SyncEffects) (idea_id : String) : Bool :=
  match recordOutcome eff idea_id with
  | .ok (_, some _) => true
  | _ => false

lemma sync_fold_invariant (eff : SyncEffects) (ids : List String) :
    ∀ r : SyncResults,
      (ids.foldl (processIdea eff) r).total_ideas = r.total_ideas ∧
      (ids.foldl (processIdea eff) r).successful_syncs
        = r.successful_syncs + ids.countP (recordSucceeds eff) ∧
      (ids.foldl (processIdea eff) r).failed_syncs
        = r.failed_syncs + (ids.length - ids.countP (recordSucceeds eff)) := by
  induction ids with
  | nil => intro r; simp
  | cons idea_id rest ih =>
      intro r
      obtain ⟨ht, hs, hf⟩ := ih (processIdea eff r idea_id)
      have hcount : rest.countP (recordSucceeds eff) ≤ rest.length :=
        List.countP_le_length _
      have hstep :
          (processIdea eff r idea_id).total_ideas = r.total_ideas ∧
          ((recordSucceeds eff idea_id = true ∧
              (processIdea eff r idea_id).successful_syncs
                = r.successful_syncs + 1 ∧
              (processIdea eff r idea_id).failed_syncs = r.failed_syncs) ∨
            (recordSucceeds eff idea_id = false ∧
              (processIdea eff r idea_id).successful_syncs
                = r.successful_syncs ∧
              (processIdea eff r idea_id).failed_syncs = r.failed_syncs + 1)) := by
        cases hout : recordOutcome eff idea_id with
        | error e =>
            refine ⟨by simp [processIdea, hout], Or.inr ?_⟩
            simp [processIdea, recordSucceeds, hout]
        | ok p =>
            obtain ⟨comments, key?⟩ := p
            cases key? with
            | none =>
                refine ⟨by simp [processIdea, hout], Or.inr ?_⟩
                simp [processIdea, recordSucceeds, hout]
            | some k =>
                refine ⟨by simp [processIdea, hout], Or.inl ?_⟩
                simp [processIdea, recordSucceeds, hout]
      obtain ⟨ht', hcases⟩ := hstep
      refine ⟨?_, ?_, ?_⟩
      · simpa [List.foldl_cons, ht'] using ht
      · rcases hcases with ⟨hb, hs', _⟩ | ⟨hb, hs', _⟩ <;>
          (simp [List.foldl_cons, List.countP_cons, hb, hs, hs']; try omega)
      · rcases hcases with ⟨hb, _, hf'⟩ | ⟨hb, _, hf'⟩ <;>
          (simp [List.foldl_cons, List.countP_cons, hb, hf, hf']; try omega)

/-- The oracle of the claim's scenario: fetching detail and comments
succeeds for all three records, and only record `"2"`'s primary write fails
(`create_jira_issue` returns `None`). -/
def effScenario : SyncEffects :=
  { fetch_idea_details := fun idea_id => .ok { name := some idea_id },
    fetch_idea_comments := fun _ => .ok [],
    create_jira_issue := fun idea =>
      if idea.name = some "2" then .ok none else .ok (some "PROJ-1"),
    add_comment_to_jira_issue := fun _ _ => true }

/-- **C2.** For every effect oracle and every fetched list of records, the
run summary counts every record exactly once: `total_ideas` is the batch
size, `successful_syncs` counts exactly the records whose outcome is a
created issue, and together with `failed_syncs` they cover the whole batch —
so one record's failure (a raised exception or a failed write) never stops
the processing of subsequent records, and `sync_ideas` returns a summary
(it is a total function of the oracle: nothing escapes the per-record
boundary).  In particular, in the concrete 3-record scenario where only
record 2's write fails, the summary is
`total_ideas = 3, successful_syncs = 2, failed_syncs = 1`. -/
theorem c2_record_failure_isolation :
    (∀ (eff : SyncEffects) (ids : List String),
      (sync_ideas eff (.ok ids)).total_ideas = ids.length ∧
      (sync_ideas eff (.ok ids)).successful_syncs
        = ids.countP (recordSucceeds eff) ∧
      (sync_ideas eff (.ok ids)).successful_syncs
          + (sync_ideas eff (.ok ids)).failed_syncs = ids.length) ∧
    sync_ideas effScenario (.ok ["1", "2", "3"]) =
      { total_ideas := 3, successful_syncs := 2, failed_syncs := 1,
        errors := [] } := by
  constructor
  · intro eff ids
    obtain ⟨ht, hs, hf⟩ := sync_fold_invariant eff ids
        { total_ideas := ids.length, successful_syncs := 0,
          failed_syncs := 0, errors := [] }
    have hcount : ids.countP (recordSucceeds eff) ≤ ids.length :=
      List.countP_le_length _
    have hs' : (sync_ideas eff (.ok ids)).successful_syncs
        = ids.countP (recordSucceeds eff) := by simpa [sync_ideas] using hs
    have hf' : (sync_ideas eff (.ok ids)).failed_syncs
        = ids.length - ids.countP (recordSucceeds eff) := by
      simpa [sync_ideas] using hf
    exact ⟨by simpa [sync_ideas] using ht, hs', by omega⟩
  · rfl

/-! ### Description formatting — `AhaJiraSync.format_description`
(`src/Ahaj.py` 154–220).  Python truthiness of `idea.get(...)` on strings is
`truthy`; on numbers it is `≠ 0`; on lists it is non-emptiness; sub-objects
(`portal`, `created_by`, `feature`) are modelled as present exactly when
truthy. -/

/-- Python truthiness of `d.get(k)` for a string-valued key: the key is
present and the string nonempty. -/
def truthy : Option String → Bool
  | some s => s ≠ ""
  | none => false

/-- The embedding of `format_description`: the description parts list is
grown by the same guarded appends as the Python function, then joined with
newlines. -/
def format_description (idea : Idea) (cfg : AhajConfig) : String :=
  let description_parts : List String := []
  let description_parts :=
    if truthy idea.description then
      description_parts ++ ["*Original Description:*", idea.description.getD "", ""]
    else description_parts
  let description_parts :=
    if truthy idea.url then
      description_parts ++ ["*Aha! Link:* " ++ idea.url.getD "", ""]
    else description_parts
  let description_parts :=
    match idea.score with
    | some score => if score ≠ 0 then
        description_parts ++ ["*Score:* " ++ toString score]
      else description_parts
    | none => description_parts
  let description_parts :=
    if ¬ idea.categories.isEmpty then
      description_parts ++ ["*Categories:* " ++
        String.intercalate ", " (idea.categories.map (fun cat => cat.name.getD ""))]
    else description_parts
  let description_parts :=
    if ¬ idea.custom_fields.isEmpty ∧ ¬ cfg.description_custom_fields.isEmpty then
      description_parts ++ ["", "*Custom Fields:*"] ++
        idea.custom_fields.filterMap (fun field =>
          let field_name := field.name.getD "Unknown Field"
          if field_name ∈ cfg.description_custom_fields then
            some ("• *" ++ field_name ++ ":* " ++ field.value.getD "N/A")
          else none)
    else description_parts
  let description_parts :=
    match idea.portal with
    | some portal_info =>
        let base := description_parts ++ ["", "*Portal Information:*",
          "• *Portal:* " ++ portal_info.name.getD "N/A"]
        if truthy portal_info.url then base ++ ["• *Portal URL:* " ++ portal_info.url.getD ""]
        else base
    | none => description_parts
  let description_parts :=
    match idea.created_by with
    | some created_by =>
        description_parts ++ ["", "*Created by:* " ++ created_by.name.getD "Unknown"
          ++ " (" ++ created_by.email.getD "N/A" ++ ")"]
    | none => description_parts
  let description_parts :=
    if truthy idea.created_at then
      description_parts ++ ["*Created:* " ++ idea.created_at.getD ""]
    else description_parts
  let description_parts :=
    match idea.feature with
    | some feature =>
        let base := description_parts ++ ["", "*Related Feature:*"]
        let base := if truthy feature.reference_num then
            base ++ ["• *Feature Reference:* " ++ feature.reference_num.getD ""]
          else base
        let base := if truthy feature.url then
            base ++ ["• *Feature URL:* " ++ feature.url.getD ""] else base
        if truthy feature.name then base ++ ["• *Feature Name:* " ++ feature.name.getD ""]
        else base
    | none => description_parts
  String.intercalate "\n" description_parts

/-! ### Assignee mapping — `AhaJiraSync.map_assignee` (`src/Ahaj.py`
222–239).  The Jira user directory search is an injected oracle. -/

/-- The embedding of `map_assignee`: no assignee or no (nonempty) email
yields `none`; an explicit override in `assignee_mappings` wins; otherwise
the directory lookup decides. -/
def map_assignee (idea : Idea) (cfg : AhajConfig)
    (find_jira_user_by_email : String → Option String) : Option String :=
  match idea.assigned_to with
  | none => none
  | some assigned_to =>
      match assigned_to.email with
      | none => none
      | some aha_email =>
          if aha_email = "" then none
          else
            match lookupKey cfg.assignee_mappings aha_email with
            | some mapped => some mapped
            | none => find_jira_user_by_email aha_email

/-! ### The idea as a JSON dict.  `create_jira_issue` hands the idea dict to
`get_nested_field_value`; `Idea.toJson` is that dict (a key appears exactly
when the structure field is present; `categories`/`custom_fields` appear
when nonempty, an empty list being indistinguishable from an absent one in
every use the code makes of them). -/

/-- Singleton entry list when the value is present. -/
def optEntry (k : String) (v : Option JValue) : List (String × JValue) :=
  match v with
  | some j => [(k, j)]
  | none => []

/-- `created_by` / `assigned_to` as a JSON object. -/
def CreatedBy.toJson (c : CreatedBy) : JValue :=
  .obj (optEntry "name" (c.name.map .str) ++ optEntry "email" (c.email.map .str))

/-- `workflow_status` as a JSON object. -/
def WorkflowStatus.toJson (w : WorkflowStatus) : JValue :=
  .obj (optEntry "name" (w.name.map .str))

/-- A category as a JSON object. -/
def Category.toJson (c : Category) : JValue :=
  .obj (optEntry "name" (c.name.map .str))

/-- `portal` as a JSON object. -/
def Portal.toJson (p : Portal) : JValue :=
  .obj (optEntry "name" (p.name.map .str) ++ optEntry "url" (p.url.map .str))

/-- `feature` as a JSON object. -/
def Feature.toJson (f : Feature) : JValue :=
  .obj (optEntry "reference_num" (f.reference_num.map .str)
    ++ optEntry "url" (f.url.map .str) ++ optEntry "name" (f.name.map .str))

/-- A custom field as a JSON object. -/
def CustomField.toJson (f : CustomField) : JValue :=
  .obj (optEntry "name" (f.name.map .str) ++ optEntry "value" (f.value.map .str))

/-- The idea as the JSON dict the Python code passes around. -/
def Idea.toJson (idea : Idea) : JValue :=
  .obj (optEntry "name" (idea.name.map .str)
    ++ optEntry "description" (idea.description.map .str)
    ++ optEntry "url" (idea.url.map .str)
    ++ optEntry "reference_num" (idea.reference_num.map .str)
    ++ optEntry "created_at" (idea.created_at.map .str)
    ++ optEntry "score" (idea.score.map .num)
    ++ (if idea.categories.isEmpty then []
        else [("categories", .arr (idea.categories.map Category.toJson))])
    ++ (if idea.custom_fields.isEmpty then []
        else [("custom_fields", .arr (idea.custom_fields.map CustomField.toJson))])
    ++ optEntry "portal" (idea.portal.map Portal.toJson)
    ++ optEntry "created_by" (idea.created_by.map CreatedBy.toJson)
    ++ optEntry "assigned_to" (idea.assigned_to.map CreatedBy.toJson)
    ++ optEntry "workflow_status" (idea.workflow_status.map WorkflowStatus.toJson)
    ++ optEntry "feature" (idea.feature.map Feature.toJson))

/-! ### Issue payload — the field-building part of
`AhaJiraSync.create_jira_issue` (`src/Ahaj.py` 350–412; the POST itself and
the follow-up web link are I/O, modelled in the orchestration layer). -/

/-- The Atlassian-document wrapper the code puts around plain text. -/
def docWrap (text : String) : JValue :=
  .obj [("type", .str "doc"), ("version", .num 1),
    ("content", .arr [.obj [("type", .str "paragraph"),
      ("content", .arr [.obj [("type", .str "text"), ("text", .str text)]])]])]

/-- `created_at` munging for the Xref-Created field:
`created_date.split('T')[0]` when a `'T'` is present. -/
def splitDate (created_date : String) : String :=
  if created_date.contains 'T' then (created_date.splitOn "T").headD ""
  else created_date

/-- Python `cat.get('name', '').replace(' ', '_')`: the pattern is the single
space character, so this is a character-wise map (spaces become
underscores). -/
def underscoreSpaces (s : String) : String :=
  ⟨s.data.map (fun c => if c = ' ' then '_' else c)⟩

/-- The `labels` list: underscored category names (when the category list is
truthy) followed by the constant `'aha-import'`. -/
def ideaLabels (idea : Idea) : List String :=
  (if idea.categories.isEmpty then []
   else idea.categories.map (fun cat => underscoreSpaces (cat.name.getD "")))
  ++ ["aha-import"]

/-- One iteration of the configured-custom-fields loop: resolve the dotted
source path on the idea dict and, when the value is present (Python's
`is not None` — a resolved JSON null also counts as absent), assign it to
the mapped Jira field. -/
def applyCustomField (ideaJson : JValue) (fields : List (String × JValue))
    (mapping : String × String) : List (String × JValue) :=
  match get_nested_field_value ideaJson mapping.1 with
  | some .null => fields
  | some field_value => dictInsert fields mapping.2 field_value
  | none => fields

/-- The payload dict built by `create_jira_issue` before the POST: the five
fixed fields, then the optional assignee, the labels, the three Xref
mappings and the configured custom-field mappings, in source order, with
Python dict-assignment (overwrite) semantics. -/
def create_jira_issue_fields (idea : Idea) (cfg : AhajConfig)
    (find_jira_user_by_email : String → Option String) : List (String × JValue) :=
  let issue_fields : List (String × JValue) :=
    [("project", .obj [("key", .str cfg.project_key)]),
     ("summary", .str (idea.name.getD "Untitled Idea")),
     ("description", docWrap (format_description idea cfg)),
     ("issuetype", .obj [("name", .str cfg.issue_type)]),
     ("priority", .obj [("name", .str (map_priority idea cfg))])]
  let issue_fields :=
    match map_assignee idea cfg find_jira_user_by_email with
    | some assignee => dictInsert issue_fields "assignee" (.obj [("accountId", .str assignee)])
    | none => issue_fields
  let issue_fields := dictInsert issue_fields "labels" (.arr ((ideaLabels idea).map .str))
  let issue_fields :=
    if truthy idea.reference_num && truthy cfg.xref_id_field then
      dictInsert issue_fields (cfg.xref_id_field.getD "")
        (.str (idea.reference_num.getD ""))
    else issue_fields
  let issue_fields :=
    if truthy idea.created_at && truthy cfg.xref_created_field then
      dictInsert issue_fields (cfg.xref_created_field.getD "")
        (.str (splitDate (idea.created_at.getD "")))
    else issue_fields
  let issue_fields :=
    if truthy (idea.created_by.getD {}).email && truthy cfg.xref_reporter_field then
      dictInsert issue_fields (cfg.xref_reporter_field.getD "")
        (.str ((idea.created_by.getD {}).email.getD ""))
    else issue_fields
  cfg.custom_fields.foldl (applyCustomField idea.toJson) issue_fields

/-! ### Dict lemmas for the payload reasoning. -/

lemma dictLookup_dictInsert_self (m : List (String × JValue)) (k : String) (v : JValue) :
    dictLookup (dictInsert m k v) k = some v := by
  induction m with
  | nil => simp [dictInsert, dictLookup]
  | cons p rest ih =>
      obtain ⟨k', v'⟩ := p
      by_cases h : k' = k
      · simp [dictInsert, dictLookup, h]
      · simp [dictInsert, dictLookup, h, ih]

lemma dictLookup_dictInsert_ne {k₁ k₂ : String} (h : k₁ ≠ k₂)
    (m : List (String × JValue)) (v : JValue) :
    dictLookup (dictInsert m k₁ v) k₂ = dictLookup m k₂ := by
  induction m with
  | nil => simp [dictInsert, dictLookup, h]
  | cons p rest ih =>
      obtain ⟨k', v'⟩ := p
      by_cases hk : k' = k₁
      · simp [dictInsert, dictLookup, hk, h]
      · simp [dictInsert, dictLookup, hk, ih]

lemma dictLookup_ite_insert_ne {k₁ k₂ : String} (h : k₁ ≠ k₂) (c : Prop) [Decidable c]
    (m : List (String × JValue)) (v : JValue) :
    dictLookup (if c then dictInsert m k₁ v else m) k₂ = dictLookup m k₂ := by
  split
  · exact dictLookup_dictInsert_ne h m v
  · rfl

lemma lookup_applyCustomField_fold (j : JValue) (l : List (String × String)) (k : String) :
    ∀ m, (∀ p ∈ l, p.2 ≠ k) →
      dictLookup (l.foldl (applyCustomField j) m) k = dictLookup m k := by
  induction l with
  | nil => intro m _; rfl
  | cons p rest ih =>
      intro m h
      have hp : p.2 ≠ k := h p (by simp)
      have hrest : ∀ q ∈ rest, q.2 ≠ k := fun q hq => h q (by simp [hq])
      have hstep : dictLookup (applyCustomField j m p) k = dictLookup m k := by
        cases hv : get_nested_field_value j p.1 with
        | none => simp [applyCustomField, hv]
        | some v =>
            cases v <;> simp [applyCustomField, hv, dictLookup_dictInsert_ne hp]
      rw [List.foldl_cons, ih _ hrest, hstep]

lemma getD_empty_ne_labels {o : Option String} (h : o ≠ some "labels") :
    o.getD "" ≠ "labels" := by
  cases o with
  | none => decide
  | some f =>
      intro hf
      exact h (by rw [Option.getD_some] at hf; rw [hf])

/-! ### Claim C4 (the worked transform example).

The specification's example expects the TargetPayload to carry a status
field equal to `"In Progress"`.  `create_jira_issue` never calls
`map_status` and puts no status field in the payload at all; the priority
half of the example does hold. -/

/-- The example source record of the claim. -/
def ideaA : Idea :=
  { name := some "Idea A", score := some 85,
    workflow_status := some { name := some "Under review" } }

/-- The example configuration of the claim: status table
`{Under review ↦ In Progress}` with default `To Do`, and a priority label
table carrying `high ↦ High`. -/
def cfgC4 : AhajConfig :=
  { project_key := "PROJ", issue_type := "Story", default_status := "To Do",
    status_mappings := [("Under review", "In Progress")],
    priority_mappings := some [("high", "High"), ("medium", "Medium"), ("low", "Low")] }

/-- **C4 counterexample.** Evaluating the whole payload built for the
example record: it consists of exactly the six fields below — there is no
status-equivalent field (no key maps to `"In Progress"` anywhere; a lookup
of `"status"` is absent), so the claim's `status-equivalent field =
"In Progress"` fails. -/
theorem c4_counterexample :
    create_jira_issue_fields ideaA cfgC4 (fun _ => none) =
      [("project", .obj [("key", .str "PROJ")]),
       ("summary", .str "Idea A"),
       ("description", docWrap "*Score:* 85"),
       ("issuetype", .obj [("name", .str "Story")]),
       ("priority", .obj [("name", .str "High")]),
       ("labels", .arr [.str "aha-import"])] ∧
    dictLookup (create_jira_issue_fields ideaA cfgC4 (fun _ => none)) "status" = none := by
  exact ⟨rfl, rfl⟩

/-- **C4 amended.** For the example record and configuration the payload's
priority field is `"High"`, and the status mapper `map_status` does return
`"In Progress"` — but `create_jira_issue` never invokes it, and the payload
carries no status field. -/
theorem c4_transform_example :
    dictLookup (create_jira_issue_fields ideaA cfgC4 (fun _ => none)) "priority"
      = some (.obj [("name", .str "High")]) ∧
    map_status ideaA cfgC4 = "In Progress" ∧
    dictLookup (create_jira_issue_fields ideaA cfgC4 (fun _ => none)) "status" = none := by
  exact ⟨rfl, rfl, rfl⟩

/-! ### Claim C9 (labels invariant).

As stated ("for every configuration") the claim fails: the Xref and
custom-field mapping stages run after the labels stage and assign with
Python dict-overwrite semantics, so a configuration that maps onto the
`labels` field clobbers the labels list.  When no configured mapping
targets `labels`, the claimed invariant holds. -/

/-- A configuration whose Xref-ID mapping targets the `labels` field. -/
def cfgClobber : AhajConfig :=
  { project_key := "PROJ", issue_type := "Story", default_status := "To Do",
    xref_id_field := some "labels" }

/-- A record carrying a reference number (so the Xref-ID stage fires). -/
def ideaRef : Idea := { reference_num := some "IDEA-1" }

/-- **C9 counterexample.** With `xref_id_field = "labels"` configured, the
payload's `labels` entry is the plain string `"IDEA-1"`: it is not a list at
all, so it does not contain the label `'aha-import'` (nor any category
label). -/
theorem c9_counterexample :
    cfgClobber.xref_id_field = some "labels" ∧
    dictLookup (create_jira_issue_fields ideaRef cfgClobber (fun _ => none)) "labels"
      = some (.str "IDEA-1") ∧
    ¬ ∃ labels,
        dictLookup (create_jira_issue_fields ideaRef cfgClobber (fun _ => none)) "labels"
          = some (.arr labels) ∧ JValue.str "aha-import" ∈ labels := by
  refine ⟨rfl, rfl, ?_⟩
  rintro ⟨labels, hl, -⟩
  have h0 : dictLookup (create_jira_issue_fields ideaRef cfgClobber (fun _ => none)) "labels"
      = some (.str "IDEA-1") := rfl
  rw [h0] at hl
  exact JValue.noConfusion (Option.some.inj hl)

/-- **C9 amended.** For every record and every configuration none of whose
Xref or custom-field mappings targets the `labels` field, the payload's
`labels` entry is exactly the list of underscored category names followed by
`'aha-import'`; in particular it contains `'aha-import'` and one label per
source category with spaces replaced by underscores. -/
theorem c9_labels_contract (idea : Idea) (cfg : AhajConfig)
    (find_jira_user_by_email : String → Option String)
    (h1 : cfg.xref_id_field ≠ some "labels")
    (h2 : cfg.xref_created_field ≠ some "labels")
    (h3 : cfg.xref_reporter_field ≠ some "labels")
    (h4 : ∀ p ∈ cfg.custom_fields, p.2 ≠ "labels") :
    dictLookup (create_jira_issue_fields idea cfg find_jira_user_by_email) "labels"
      = some (.arr ((ideaLabels idea).map .str)) ∧
    "aha-import" ∈ ideaLabels idea ∧
    ∀ cat ∈ idea.categories,
      underscoreSpaces (cat.name.getD "") ∈ ideaLabels idea := by
  refine ⟨?_, ?_, ?_⟩
  · simp only [create_jira_issue_fields]
    rw [lookup_applyCustomField_fold _ _ _ _ h4,
      dictLookup_ite_insert_ne (getD_empty_ne_labels h3),
      dictLookup_ite_insert_ne (getD_empty_ne_labels h2),
      dictLookup_ite_insert_ne (getD_empty_ne_labels h1),
      dictLookup_dictInsert_self]
  · exact List.mem_append_right _ (by simp)
  · intro cat hcat
    have hne : idea.categories.isEmpty = false := by
      cases hl : idea.categories with
      | nil => rw [hl] at hcat; cases hcat
      | cons a l => rfl
    simp only [ideaLabels, hne, Bool.false_eq_true, if_false]
    exact List.mem_append_left _ (List.mem_map_of_mem _ hcat)

/-- Witness for the amended C9: a record with one category
`"User Experience"` and a configuration with no mapping onto `labels`
yields exactly `["User_Experience", "aha-import"]`. -/
theorem c9_labels_contract_witness :
    dictLookup
        (create_jira_issue_fields
          { name := some "I", categories := [{ name := some "User Experience" }] }
          { project_key := "PROJ", issue_type := "Story", default_status := "To Do" }
          (fun _ => none))
        "labels"
      = some (.arr [.str "User_Experience", .str "aha-import"]) := by
  have h := c9_labels_contract
    { name := some "I", categories := [{ name := some "User Experience" }] }
    { project_key := "PROJ", issue_type := "Story", default_status := "To Do" }
    (fun _ => none) (by decide) (by decide) (by decide)
    (by intro p hp; exact absurd hp (List.not_mem_nil p))
  have hlab :
      ideaLabels { name := some "I", categories := [{ name := some "User Experience" }] }
        = ["User_Experience", "aha-import"] := by decide
  rw [hlab] at h
  exact h.1

/-! ### Jira2AhaSync.py — the second pipeline.

`sync_issue_with_aha` / `update_jira_issue` / `upload_attachment_to_jira`
(`src/Jira2AhaSync.py` 139–239).  HTTP reads are an oracle; every outbound
*write* (the issue PUT and the attachment POST) is recorded in a trace of
`WriteCall`s so that dry-run behaviour is observable. -/

/-- Python truthiness of a JSON value. -/
def jvalueTruthy : JValue → Bool
  | .null => false
  | .bool b => b
  | .num n => n ≠ 0
  | .str s => s ≠ ""
  | .arr items => ¬ items.isEmpty
  | .obj entries => ¬ entries.isEmpty

/-- The `Config` dataclass fields that `sync_issue_with_aha` reads. -/
structure J2AConfig where
  jira_aha_reference_field : String := "customfield_12345"
  update_description : Bool := true
  update_attachments : Bool := true
  dry_run : Bool := false
  additional_field_mappings : List (String × String) := []

/-- An Aha! attachment record as read with `dict.get`. -/
structure Attachment where
  download_url : Option String := none
  filename : Option String := none
  id : Option String := none

/-- Read-side oracle for `sync_issue_with_aha`: what each GET returns
(`none` models a request error), plus the outcomes of the two writes. -/
structure J2AOracle where
  get_aha_idea : JValue → Option (List (String × JValue))
  get_aha_attachments : JValue → List Attachment
  download_attachment : String → Option String
  put_result : Bool
  upload_result : Bool

/-- An outbound write to the target service. -/
inductive WriteCall where
  | updateIssue (issue_key : String) (field_keys : List String)
  | uploadAttachment (issue_key : String) (filename : String)
deriving DecidableEq

/-- The embedding of `update_jira_issue` (`src/Jira2AhaSync.py` 155–174):
in dry-run mode it logs and returns `True` without issuing the PUT;
otherwise the PUT is issued and its outcome returned. -/
def update_jira_issue (cfg : J2AConfig) (oracle : J2AOracle) (issue_key : String)
    (fields : List (String × JValue)) : Bool × List WriteCall :=
  if cfg.dry_run then (true, [])
  else (oracle.put_result, [.updateIssue issue_key (fields.map Prod.fst)])

/-- The embedding of `upload_attachment_to_jira` (`src/Jira2AhaSync.py`
139–153): the POST is issued unconditionally — the function never consults
`dry_run`. -/
def upload_attachment_to_jira (oracle : J2AOracle) (issue_key filename : String)
    (content : String) : Bool × List WriteCall :=
  let _ := content
  (oracle.upload_result, [.uploadAttachment issue_key filename])

/-- The embedding of `sync_issue_with_aha` (`src/Jira2AhaSync.py` 176–239):
resolve the Aha reference, fetch the idea, build `update_fields`
(description when enabled and truthy, then the additional field mappings by
key membership), write them unless empty, then — when attachments are
enabled and the primary step succeeded — download and upload each
attachment carrying a truthy `download_url` and truthy content.  The result
is the returned success flag paired with the trace of issued writes. -/
def sync_issue_with_aha (cfg : J2AConfig) (oracle : J2AOracle)
    (issue_key : String) (issue_fields : List (String × JValue)) :
    Bool × List WriteCall :=
  match dictLookup issue_fields cfg.jira_aha_reference_field with
  | none => (false, [])
  | some aha_reference =>
      if ¬ jvalueTruthy aha_reference then (false, [])
      else
        match oracle.get_aha_idea aha_reference with
        | none => (false, [])
        | some aha_idea =>
            if aha_idea.isEmpty then (false, [])
            else
              let update_fields : List (String × JValue) :=
                match dictLookup aha_idea "description" with
                | some (.str aha_description) =>
                    if cfg.update_description && (aha_description ≠ "") then
                      [("description", docWrap ("Synced from Aha:\n" ++ aha_description))]
                    else []
                | _ => []
              let update_fields :=
                cfg.additional_field_mappings.foldl
                  (fun fields mapping =>
                    match dictLookup aha_idea mapping.1 with
                    | some v => dictInsert fields mapping.2 v
                    | none => fields)
                  update_fields
              let step :=
                if update_fields.isEmpty then (true, ([] : List WriteCall))
                else update_jira_issue cfg oracle issue_key update_fields
              let attachment_calls :=
                if cfg.update_attachments && step.1 then
                  (oracle.get_aha_attachments aha_reference).foldl
                    (fun calls attachment =>
                      match attachment.download_url with
                      | some attachment_url =>
                          if attachment_url ≠ "" then
                            (match oracle.download_attachment attachment_url with
                             | some content =>
                                 if content ≠ "" then
                                   calls ++ (upload_attachment_to_jira oracle issue_key
                                     (attachment.filename.getD
                                       ("aha_attachment_" ++ attachment.id.getD "None"))
                                     content).2
                                 else calls
                             | none => calls)
                          else calls
                      | none => calls)
                    []
                else []
              (step.1, step.2 ++ attachment_calls)

/-! ### Claim C7 (dry run suppresses all writes).

`update_jira_issue` honours `dry_run`, but `upload_attachment_to_jira`
never checks it, and `sync_issue_with_aha` proceeds to the attachment
uploads because the dry-run update reports success.  The code's own log
lines ("DRY RUN", "no changes will be made") state the claimed contract, so
this is a defect of the code, exhibited below. -/

/-- Dry-run configuration, attachments enabled (both defaults). -/
def cfgDryRun : J2AConfig := { dry_run := true }

/-- Oracle for the failing input: the idea exists with a description, and it
has one attachment whose download succeeds. -/
def oracleC7 : J2AOracle :=
  { get_aha_idea := fun _ => some [("description", .str "Text from Aha")],
    get_aha_attachments := fun _ =>
      [{ download_url := some "https://aha.example/att/1",
         filename := some "design.png", id := some "1" }],
    download_attachment := fun _ => some "pngbytes",
    put_result := true,
    upload_result := true }

/-- **C7.** With `dry_run = true`, syncing an issue that has an Aha
reference and one downloadable attachment issues an attachment-upload write
call to the target service: the trace is exactly
`[uploadAttachment "KEY-1" "design.png"]` — the description PUT was
suppressed by dry run, but the upload was not, contradicting the
specification's "computes payloads but suppresses write calls". -/
theorem c7_dry_run_still_uploads :
    cfgDryRun.dry_run = true ∧
    sync_issue_with_aha cfgDryRun oracleC7 "KEY-1"
        [("customfield_12345", .str "A-1")]
      = (true, [.uploadAttachment "KEY-1" "design.png"]) := by
  exact ⟨rfl, by decide⟩

/-! ### Claim C8 (exit behaviour).

Neither entry point exits non-zero on a missing required configuration
*value*: `Jira2AhaSync.main` logs the missing fields and `return`s (process
exit 0, lines 324–329), and `Ahaj.main` logs a missing product id and
`return`s (exit 0, lines 671–673).  Only an exception reaching `Ahaj.main`'s
outer `except` produces `sys.exit(1)` (line 694). -/

/-- The required-field names validated by `Jira2AhaSync.main`. -/
def required_fields : List String :=
  ["jira_url", "jira_username", "jira_token", "jira_project_key",
   "aha_domain", "aha_api_key"]

/-- The environment-derived configuration strings (empty = unset, which is
falsy for `getattr(config, field)`). -/
structure EnvConfig where
  jira_url : String
  jira_username : String
  jira_token : String
  jira_project_key : String
  aha_domain : String
  aha_api_key : String

/-- `getattr(config, field)` for the validated fields. -/
def getattrEnv (c : EnvConfig) (field : String) : String :=
  if field = "jira_url" then c.jira_url
  else if field = "jira_username" then c.jira_username
  else if field = "jira_token" then c.jira_token
  else if field = "jira_project_key" then c.jira_project_key
  else if field = "aha_domain" then c.aha_domain
  else c.aha_api_key

/-- `[field for field in required_fields if not getattr(config, field)]`. -/
def missing_fields (c : EnvConfig) : List String :=
  required_fields.filter (fun field => getattrEnv c field = "")

/-- The exit behaviour of `Jira2AhaSync.main` (lines 286–349): the pair is
(process exit code, whether the completion summary
`"Synchronization complete ... X/Y"` was logged).  `issues` is what
`get_jira_issues` returned.  The function contains no `sys.exit`: every
path returns, so the process exit code is always 0. -/
def j2a_main (c : EnvConfig) (issues : List String) : Nat × Bool :=
  if ¬ (missing_fields c).isEmpty then (0, false)
  else if issues.isEmpty then (0, false)
  else (0, true)

/-- The exit behaviour of `Ahaj.main` (lines 662–694): an exception during
startup (missing or malformed `config.json`, a missing required key read in
the constructor) reaches the outer `except` and exits 1; a falsy product id
is logged and the function returns (exit 0, no summary); otherwise
`sync_ideas` returns a summary which is printed and the process exits 0. -/
def ahaj_main (load_config_result : Except String Unit)
    (product_id : Option String) : Nat × Bool :=
  match load_config_result with
  | .error _ => (1, false)
  | .ok _ =>
      match product_id with
      | none => (0, false)
      | some _ => (0, true)

/-- An environment with one required value (`jira_username`) unset. -/
def envMissingUser : EnvConfig :=
  { jira_url := "https://jira.example", jira_username := "", jira_token := "t",
    jira_project_key := "P", aha_domain := "aha.example", aha_api_key := "k" }

/-- **C8 counterexample.** With `jira_username` missing,
`Jira2AhaSync.main` logs the missing field and exits with status 0 (and no
summary) — not the non-zero status the claim requires for a missing
required configuration value. -/
theorem c8_counterexample :
    missing_fields envMissingUser = ["jira_username"] ∧
    j2a_main envMissingUser [] = (0, false) := by
  exact ⟨rfl, rfl⟩

/-- **C8 amended.** `Jira2AhaSync.main` exits 0 on every configuration and
every fetched batch (missing required values only suppress the run and the
summary); `Ahaj.main` exits 1 exactly when startup raises (missing/invalid
configuration file), exits 0 without a summary on a missing product id, and
exits 0 with the attempted/succeeded/failed summary on a completed run. -/
theorem c8_exit_behavior :
    (∀ (c : EnvConfig) (issues : List String), (j2a_main c issues).1 = 0) ∧
    (∀ (e : String) (p : Option String), ahaj_main (.error e) p = (1, false)) ∧
    ahaj_main (.ok ()) none = (0, false) ∧
    (∀ pid : String, ahaj_main (.ok ()) (some pid) = (0, true)) := by
  refine ⟨fun c issues => ?_, fun e p => rfl, rfl, fun pid => rfl⟩
  simp only [j2a_main]
  split
  · rfl
  · split <;> rfl
